import Mathlib

/-!
Shallow embedding of the core of the `Agent-IA` cybersecurity chatbot:
the intent classifier (`detect_intent`), the similarity retriever
(`CyberFAQAgent.answer` / `CyberFAQAgent.search`) and the conversation
orchestrator (`CyberOrchestrator.respond` with its phishing follow-up
state machine), together with theorems settling the spec claims.

Modelling conventions:
* similarity scores (numpy float64 cosine similarities) are modelled as
  rationals; the TF-IDF transform plus cosine similarity against the FAQ
  matrix is abstracted as an oracle `simsOf : String → List ℚ` giving the
  similarity row for a query;
* the random tip (`random.choice(self.tips)`) is passed in as an explicit
  `tip` argument, since exactly one tip is drawn per turn;
* the SQLite persistence sink is modelled as an explicit event trace
  (`DBEvent`), and the caller-owned session dict as a partial map
  `String → Option String`;
* a Python value that is either a plain string or a `{"question": ...}`
  dict (as occurs in the `suggestions` field) is modelled by `PyVal`.
-/

/-- A FAQ entry of the knowledge base: question, answer, category. -/
structure FAQEntry where
  question : String
  answer : String
  category : String
deriving DecidableEq, Inhabited

/-- A guidance block of the knowledge base, keyed by intent name. -/
structure GuidanceBlock where
  why : String
  best_practices : List String
  common_mistakes : List String
deriving DecidableEq, Inhabited

/-- A dynamically typed Python value as it occurs in the first component of
a suggestion pair: either a plain string label, or a dict. -/
inductive PyVal where
  | str : String → PyVal
  | dict : List (String × String) → PyVal
deriving DecidableEq

/-- Whether a `PyVal` is a plain string. -/
def PyVal.isStr : PyVal → Bool
  | .str _ => true
  | .dict _ => false

/-- The `AgentResponse` dataclass returned by the orchestrator. -/
structure AgentResponse where
  message : String
  steps : List String
  suggestions : List (PyVal × ℚ)
  tip : String
  follow_up : String
  intent : String
deriving DecidableEq

/-- An observable side effect on the persistence sink (`ConversationDB`). -/
inductive DBEvent where
  | save_conversation : String → String → String → String → DBEvent
  | increment_metric : String → String → DBEvent
deriving DecidableEq

/-- Whether an event is a conversation-turn log. -/
def DBEvent.isSave : DBEvent → Bool
  | .save_conversation _ _ _ _ => true
  | _ => false

/-- Whether an event is a metric-counter increment. -/
def DBEvent.isIncr : DBEvent → Bool
  | .increment_metric _ _ => true
  | _ => false

/-- The caller-owned session dict, restricted to string values. -/
def Session : Type := String → Option String

/-- `session[k] = v` on a Python dict. -/
def Session.set (s : Session) (k v : String) : Session :=
  fun q => if q = k then some v else s q

/-- `session.pop(k, None)` on a Python dict. -/
def Session.pop (s : Session) (k : String) : Session :=
  fun q => if q = k then none else s q

/-- The empty session dict. -/
def emptySession : Session := fun _ => none

/-- Python's `str.lower()` (char-wise, structurally recursive so that it
evaluates). -/
def strLower (s : String) : String :=
  String.mk (s.data.map Char.toLower)

/-- Python's `str.strip()`: drop leading and trailing whitespace. -/
def strTrim (s : String) : String :=
  String.mk (((s.data.dropWhile Char.isWhitespace).reverse.dropWhile
    Char.isWhitespace).reverse)

/-- Boolean test that `p` is a prefix of `l` (char lists). -/
def listPref : List Char → List Char → Bool
  | [], _ => true
  | _ :: _, [] => false
  | a :: as, b :: bs => a == b && listPref as bs

/-- Boolean test that `k` occurs as a contiguous sublist of `t`. -/
def listInfix (k : List Char) : List Char → Bool
  | [] => k.isEmpty
  | b :: bs => listPref k (b :: bs) || listInfix k bs

/-- Python's `k in t` substring test. -/
def strContains (t k : String) : Bool :=
  listInfix k.data t.data

/-- One character of the classifier's normalization: apostrophes and hyphens
become spaces, the accented letters é, è, ê become e. -/
def normalize_char (c : Char) : Char :=
  if c = Char.ofNat 39 then ' '
  else if c = '-' then ' '
  else if c = 'é' then 'e'
  else if c = 'è' then 'e'
  else if c = 'ê' then 'e'
  else c

/-- The classifier's text normalization: lower-case then replace
apostrophes/hyphens/accented-e variants (all single-char replacements). -/
def normalize_text (text : String) : String :=
  String.mk ((strLower text).data.map normalize_char)

/-- The greeting keyword list, checked before every other intent. -/
def greeting_keywords : List String :=
  ["bonjour", "salut", "bonsoir", "hello", "hi", "hey", "coucou"]

/-- The ordered intent → keyword-list pairs, in Python dict insertion order. -/
def intent_keywords : List (String × List String) :=
  [ ("phishing_incident",
      ["phishing", "hameçonnage", "hameconnage", "email suspect",
       "mail suspect", "lien suspect", "lien douteux", "ai clique",
       "j ai clique", "clique sur", "piege", "arnaque", "scam",
       "frauduleux", "usurpation", "recu un mail", "email bizarre",
       "suspect", "douteux", "etrange"]),
    ("password_security",
      ["mot de passe", "password", "mdp", "gestionnaire", "complexe",
       "securise", "robuste", "fort", "faible", "creer un mot",
       "changer mot", "oublie mot", "reset password", "perdu mot",
       "bloque", "verrouille", "probleme mot", "compte bloque"]),
    ("mfa",
      ["mfa", "2fa", "authentification", "double authentification",
       "multifacteur", "code", "verification", "token", "otp",
       "deux facteurs", "validation"]),
    ("vpn",
      ["vpn", "reseau", "a distance", "remote", "connexion",
       "distant", "tunnel", "wifi public", "reseau public",
       "travail distance", "teletravail"]),
    ("updates",
      ["mise a jour", "maj", "patch", "correctif", "update",
       "installer", "mettre a jour", "version", "upgrade"]),
    ("data_sensitivity",
      ["donnees sensibles", "donnees", "rgpd", "confidentiel",
       "partage", "fichier", "document", "transfert", "sensitive",
       "partager fichier", "envoyer fichier", "donnee"]),
    ("incident_reporting",
      ["incident", "signaler", "securite", "compromis", "support",
       "alerte", "probleme", "attaque", "breach", "violation",
       "contacter", "aide", "urgence"]) ]

/-- `CyberOrchestrator.detect_intent`: first-match-wins keyword
classification over the normalized text, greeting checked first,
`general` when nothing matches. -/
def detect_intent (text : String) : String :=
  let t := normalize_text text
  if greeting_keywords.any (fun k => strContains t k) then "greeting"
  else
    match intent_keywords.find? (fun p => p.2.any (fun k => strContains t k)) with
    | some p => p.1
    | none => "general"

/-- The similarity retriever (`CyberFAQAgent`).  The TF-IDF vectorizer and
the cosine similarity against the fitted FAQ matrix are abstracted as the
oracle `simsOf`, returning one similarity per FAQ row for a query. -/
structure CyberFAQAgent where
  faq : List FAQEntry
  tips : List String
  min_similarity : ℚ
  simsOf : String → List ℚ

/-- numpy's `argmax`: the first index attaining the maximum (stable,
ties broken by lowest index); `0` on the empty list. -/
def argmaxIdx : List ℚ → ℕ
  | [] => 0
  | [_] => 0
  | a :: b :: rest =>
    let j := argmaxIdx (b :: rest)
    if a < (b :: rest).getD j 0 then j + 1 else 0

/-- The total order on indices realized by `sims.argsort()[::-1]` in numpy:
descending by similarity, ties broken by the larger index first (ascending
stable argsort, then reversed). -/
def argRel (sims : List ℚ) (i j : ℕ) : Prop :=
  sims.getD j 0 < sims.getD i 0 ∨ (sims.getD i 0 = sims.getD j 0 ∧ j ≤ i)

instance (sims : List ℚ) : DecidableRel (argRel sims) :=
  fun i j => by unfold argRel; infer_instance

instance (sims : List ℚ) : IsTotal ℕ (argRel sims) where
  total i j := by
    unfold argRel
    rcases lt_trichotomy (sims.getD i 0) (sims.getD j 0) with h | h | h
    · exact Or.inr (Or.inl h)
    · rcases Nat.le_total j i with hj | hj
      · exact Or.inl (Or.inr ⟨h, hj⟩)
      · exact Or.inr (Or.inr ⟨h.symm, hj⟩)
    · exact Or.inl (Or.inl h)

instance (sims : List ℚ) : IsTrans ℕ (argRel sims) where
  trans i j k hij hjk := by
    unfold argRel at *
    rcases hij with h₁ | ⟨e₁, l₁⟩
    · rcases hjk with h₂ | ⟨e₂, l₂⟩
      · exact Or.inl (h₂.trans h₁)
      · exact Or.inl (e₂ ▸ h₁)
    · rcases hjk with h₂ | ⟨e₂, l₂⟩
      · exact Or.inl (e₁ ▸ h₂)
      · exact Or.inr ⟨e₁.trans e₂, l₂.trans l₁⟩

/-- `sims.argsort()[::-1]`: every index of `sims`, sorted descending by
similarity (stable sort reversed).  Since `argRel` is a total order on the
distinct indices, the sorted list is unique, so an insertion sort realizes
exactly the numpy result. -/
def argsortDesc (sims : List ℚ) : List ℕ :=
  List.insertionSort (argRel sims) (List.range sims.length)

/-- The fixed fallback answer returned when the best similarity is below
`min_similarity`. -/
def fallback_answer : String :=
  "Je n'ai pas une réponse précise pour cette question. " ++
  "Voici quelques conseils généraux : évitez de cliquer sur des liens " ++
  "suspects, utilisez des mots de passe robustes (12+ caractères), " ++
  "activez la MFA partout où c'est possible. " ++
  "Pour les incidents ou questions spécifiques, contactez l'équipe cybersécurité."

/-- The fixed prompt-for-input answer returned on a blank query. -/
def empty_query_answer : String :=
  "Veuillez poser une question liée à la cybersécurité."

/-- `CyberFAQAgent.answer`: best-match retrieval.  Returns the best row's
answer, its score and the row itself, or the generic fallback below
`min_similarity`; a blank query short-circuits with score `0` and empty
metadata (modelled as `none`). -/
def faq_answer (A : CyberFAQAgent) (query : String) : String × ℚ × Option FAQEntry :=
  if query = "" ∨ strTrim query = "" then
    (empty_query_answer, 0, none)
  else
    let sims := A.simsOf query
    let best_idx := argmaxIdx sims
    let best_score := sims.getD best_idx 0
    let best_row := A.faq.getD best_idx default
    if A.min_similarity ≤ best_score then
      (best_row.answer, best_score, some best_row)
    else
      (fallback_answer, best_score, none)

/-- `CyberFAQAgent.search`: ranked retrieval.  Takes the `top_k` indices by
descending similarity, keeping only those whose score clears the `0.10`
relevance floor; a blank query short-circuits with the empty ranking. -/
def faq_search (A : CyberFAQAgent) (query : String) (top_k : ℕ) :
    List (FAQEntry × ℚ) :=
  if query = "" ∨ strTrim query = "" then []
  else
    let sims := A.simsOf query
    let idxs := (argsortDesc sims).take top_k
    idxs.filterMap fun i =>
      let score := sims.getD i 0
      if mkRat 1 10 ≤ score then some (A.faq.getD i default, score) else none

/-- The conversation orchestrator: the FAQ agent plus the guidance map
loaded from the knowledge base. -/
structure CyberOrchestrator where
  faq : CyberFAQAgent
  guidance : List (String × GuidanceBlock)

/-- `CyberOrchestrator._generic_steps`: the fixed per-intent checklists. -/
def generic_steps_map : List (String × List String) :=
  [ ("password_security",
      ["Utilisez un gestionnaire de mots de passe fourni par l'organisation.",
       "Créez un mot de passe d'au moins 12 caractères mélangeant majuscules, minuscules, chiffres et symboles.",
       "Activez la MFA sur tous vos comptes critiques.",
       "Ne réutilisez jamais le même mot de passe."]),
    ("mfa",
      ["Préférez les applications d'authentification (Google Authenticator, Microsoft Authenticator) aux SMS.",
       "Gardez des codes de secours dans un coffre sécurisé.",
       "Activez la MFA sur tous les comptes qui le permettent."]),
    ("vpn",
      ["Téléchargez le client VPN depuis le portail IT de votre organisation.",
       "Activez le VPN avant d'accéder à toute ressource interne.",
       "Utilisez toujours le VPN sur les réseaux publics ou non fiables.",
       "Fermez la session VPN après usage."]),
    ("updates",
      ["Appliquez les patchs critiques dans les 48 heures.",
       "Installez les patchs normaux dans les 2 semaines.",
       "Redémarrez l'appareil après un patch critique.",
       "Vérifiez que la mise à jour s'est bien appliquée."]),
    ("data_sensitivity",
      ["Utilisez uniquement les outils homologués pour partager des fichiers sensibles.",
       "Chiffrez les données en transit (HTTPS/TLS) et au repos.",
       "Limitez l'accès aux personnes vraiment autorisées.",
       "Appliquez le principe du moindre privilège."]),
    ("incident_reporting",
      ["Collectez les éléments (logs, captures, emails) sans les altérer.",
       "Contactez immédiatement l'équipe sécurité (ne pas attendre).",
       "Créez un ticket dans le système GRC si disponible.",
       "Notifiez votre manager de la situation."]),
    ("general",
      ["Vérifiez toujours l'expéditeur des emails.",
       "Utilisez des mots de passe robustes et uniques.",
       "Activez la MFA partout où c'est possible.",
       "En cas de doute, contactez l'équipe sécurité."]) ]

/-- The generic checklist, the fallback for unrecognized intents. -/
def general_steps : List String :=
  ["Vérifiez toujours l'expéditeur des emails.",
   "Utilisez des mots de passe robustes et uniques.",
   "Activez la MFA partout où c'est possible.",
   "En cas de doute, contactez l'équipe sécurité."]

/-- `mapping.get(intent, mapping["general"])`. -/
def generic_steps (intent : String) : List String :=
  match generic_steps_map.find? (fun p => p.1 = intent) with
  | some p => p.2
  | none => general_steps

/-- `CyberOrchestrator._enrich_md`: the guidance enrichment appended to a
message — a context paragraph, then the best-practices bullet block and the
common-mistakes bullet block, each only when non-empty. -/
def enrich_md (O : CyberOrchestrator) (intent : String) : String :=
  match O.guidance.find? (fun p => p.1 = intent) with
  | none => ""
  | some p =>
    let g := p.2
    let output := "\n\n**Contexte :** " ++ g.why
    let output :=
      if g.best_practices.isEmpty then output
      else output ++ "\n\n**Bonnes pratiques :**\n" ++
        String.join (g.best_practices.map (fun bp => "• " ++ bp ++ "\n"))
    let output :=
      if g.common_mistakes.isEmpty then output
      else output ++ "\n**Erreurs courantes :**\n" ++
        String.join (g.common_mistakes.map (fun m => "⚠️ " ++ m ++ "\n"))
    output

/-- The fixed welcome message of the greeting branch. -/
def greeting_message : String :=
  "Bonjour ! Je suis CyberGuard, votre assistant en cybersécurité. " ++
  "Je peux vous aider avec : le phishing, les mots de passe, la MFA, " ++
  "le VPN, les mises à jour, la gestion des données sensibles, et le signalement d'incidents. " ++
  "Comment puis-je vous aider ?"

/-- The three fixed suggestion chips of the greeting branch.  Note that the
first components are dicts, not plain strings. -/
def greeting_suggestions : List (PyVal × ℚ) :=
  [ (PyVal.dict [("question", "🔐 Comment créer un mot de passe solide ?")], 1),
    (PyVal.dict [("question", "🚨 Comment détecter un email suspect ?")], 1),
    (PyVal.dict [("question", "🔑 Qu'est-ce que la MFA ?")], 1) ]

/-- The fixed triage message of the phishing-incident branch. -/
def phishing_message : String :=
  "Compris. Pour un potentiel hameçonnage, restons méthodiques. " ++
  "Je vais vous guider étape par étape."

/-- The three fixed remediation steps of the phishing-incident branch. -/
def phishing_steps : List String :=
  ["Ne cliquez plus dans l'email et n'ouvrez pas les pièces jointes.",
   "Si vous avez entré des identifiants, changez-les immédiatement et activez la MFA.",
   "Capturez les éléments (expéditeur, sujet, lien) et signalez l'email à la sécurité."]

/-- The follow-up question asked by the phishing-incident branch. -/
def phishing_follow_up : String :=
  "Avez-vous entré des identifiants ou téléchargé une pièce jointe après avoir cliqué ?"

/-- The clarification prompt for vague input. -/
def clarification_message : String :=
  "Je peux vous aider sur : phishing, mots de passe, MFA, VPN, mises à jour, données sensibles, " ++
  "signalement d'incident. Pouvez-vous préciser votre problème ?"

/-- The four fixed suggestion chips of the clarification branch.  As in the
greeting branch, the first components are dicts, not plain strings. -/
def clarification_suggestions : List (PyVal × ℚ) :=
  [ (PyVal.dict [("question", "🚨 J'ai reçu un mail suspect")], 1),
    (PyVal.dict [("question", "🔐 Mon mot de passe est bloqué")], 1),
    (PyVal.dict [("question", "🔑 Activer la MFA")], 1),
    (PyVal.dict [("question", "🛡️ Signaler un incident")], 1) ]

/-- The fixed four-step password-recovery script substituted for a
low-confidence retrieval on the `password_security` intent. -/
def password_fallback_answer : String :=
  "Voyons ensemble pour votre mot de passe :\n" ++
  "1) Essayez la fonction « Mot de passe oublié » du portail.\n" ++
  "2) Si votre compte est bloqué, attendez 15 minutes puis réessayez.\n" ++
  "3) Si ça ne marche pas, contactez le support IT pour un reset sécurisé.\n" ++
  "4) Une fois réinitialisé, définissez un mot de passe unique et activez la MFA."

/-- The urgent remediation message of the phishing follow-up. -/
def followup_urgent_message : String :=
  "Action immédiate requise :\n" ++
  "1. Changez tous vos mots de passe immédiatement\n" ++
  "2. Activez la MFA sur tous vos comptes\n" ++
  "3. Contactez l'équipe sécurité : security@company.com\n" ++
  "4. Surveillez vos comptes pour toute activité suspecte"

/-- The four urgent remediation steps of the phishing follow-up. -/
def followup_urgent_steps : List String :=
  ["Changez vos mots de passe maintenant",
   "Activez la MFA partout",
   "Contactez security@company.com",
   "Surveillez vos comptes"]

/-- The lower-urgency remediation message of the phishing follow-up. -/
def followup_calm_message : String :=
  "Bien. Voici ce qu'il faut faire :\n" ++
  "1. Ne réutilisez plus cet email\n" ++
  "2. Signalez-le à votre équipe IT\n" ++
  "3. Supprimez l'email\n" ++
  "4. Restez vigilant pour les prochains emails"

/-- The three lower-urgency remediation steps of the phishing follow-up. -/
def followup_calm_steps : List String :=
  ["Signalez l'email à l'équipe IT",
   "Supprimez l'email sans y répondre",
   "Restez vigilant"]

/-- `CyberOrchestrator._handle_phishing_followup`: clears `pending_flow`,
gates on the credential-admission keywords of the lowercased text, logs the
turn under the synthetic intent `phishing_followup`, returns no
suggestions. -/
def handle_phishing_followup (O : CyberOrchestrator) (user_text : String)
    (session : Session) (user_id : String) (tip : String) :
    AgentResponse × Session × List DBEvent :=
  let t := strLower user_text
  let session' := Session.pop session "pending_flow"
  let msgSteps :=
    if strContains t "oui" || strContains t "identifiant" || strContains t "mot de passe" then
      (followup_urgent_message, followup_urgent_steps)
    else
      (followup_calm_message, followup_calm_steps)
  ( { message := msgSteps.1, steps := msgSteps.2, suggestions := [],
      tip := tip, follow_up := "", intent := "phishing_followup" },
    session',
    [DBEvent.save_conversation user_id user_text msgSteps.1 "phishing_followup"] )

/-- `CyberOrchestrator.respond`: the two-state conversation state machine.
Returns the `AgentResponse`, the updated session and the trace of
persistence-sink events of the turn.  The drawn random tip is the `tip`
argument. -/
def respond (O : CyberOrchestrator) (user_text : String) (session : Session)
    (user_id : String) (tip : String) :
    AgentResponse × Session × List DBEvent :=
  if session "pending_flow" = some "phishing_followup" then
    handle_phishing_followup O user_text session user_id tip
  else
    let intent := detect_intent user_text
    if intent = "greeting" then
      ( { message := greeting_message, steps := [],
          suggestions := greeting_suggestions, tip := tip,
          follow_up := "", intent := intent },
        session,
        [DBEvent.save_conversation user_id user_text greeting_message intent,
         DBEvent.increment_metric "question_asked" intent] )
    else if intent = "phishing_incident" then
      let suggestions := (faq_search O.faq user_text 3).map
        (fun p => (PyVal.str p.1.question, p.2))
      let session' := Session.set session "pending_flow" "phishing_followup"
      let msg := phishing_message ++ enrich_md O intent
      ( { message := msg, steps := phishing_steps, suggestions := suggestions,
          tip := tip, follow_up := phishing_follow_up, intent := intent },
        session',
        [DBEvent.save_conversation user_id user_text msg intent,
         DBEvent.increment_metric "question_asked" intent] )
    else
      let ans := faq_answer O.faq user_text
      let score := ans.2.1
      let suggestions := (faq_search O.faq user_text 3).map
        (fun p => (PyVal.str p.1.question, p.2))
      let steps := generic_steps intent
      if score < mkRat 3 20 ∧ (intent = "general" ∨ intent = "incident_reporting") then
        ( { message := clarification_message, steps := [],
            suggestions := clarification_suggestions, tip := tip,
            follow_up := "", intent := intent },
          session,
          [DBEvent.save_conversation user_id user_text clarification_message intent,
           DBEvent.increment_metric "question_asked" intent] )
      else if intent = "password_security" ∧ score < mkRat 3 10 then
        let msg := password_fallback_answer ++ enrich_md O "password_security"
        ( { message := msg, steps := steps, suggestions := suggestions,
            tip := tip, follow_up := "", intent := intent },
          session,
          [DBEvent.save_conversation user_id user_text msg intent,
           DBEvent.increment_metric "question_asked" intent] )
      else
        let msg :=
          if mkRat 3 10 ≤ score then ans.1 ++ enrich_md O intent
          else ans.1 ++ enrich_md O "general"
        ( { message := msg, steps := steps, suggestions := suggestions,
            tip := tip, follow_up := "", intent := intent },
          session,
          [DBEvent.save_conversation user_id user_text msg intent,
           DBEvent.increment_metric "question_asked" intent] )

/-- A small concrete FAQ agent used to instantiate the theorems: three FAQ
entries, with an oracle giving similarity row `[1/2, 1/20, 1/5]` to the
query `"mfa"` and `[1/10, 1/20, 1/5]` to every other query. -/
def testAgent : CyberFAQAgent where
  faq := [ { question := "Comment creer un mot de passe solide ?",
             answer := "Utilisez au moins 12 caractères variés.",
             category := "password" },
           { question := "Comment reconnaitre un email de phishing ?",
             answer := "Vérifiez l'expéditeur et les liens.",
             category := "phishing" },
           { question := "Pourquoi activer la MFA ?",
             answer := "Elle bloque la plupart des compromissions.",
             category := "mfa" } ]
  tips := ["Activez la MFA partout où c'est possible."]
  min_similarity := mkRat 3 20
  simsOf := fun q =>
    if q = "mfa" then [mkRat 1 2, mkRat 1 20, mkRat 1 5]
    else [mkRat 1 10, mkRat 1 20, mkRat 1 5]

/-- A small concrete guidance map used to instantiate the theorems. -/
def testGuidance : List (String × GuidanceBlock) :=
  [ ("mfa",
     { why := "La MFA bloque la plupart des compromissions de comptes.",
       best_practices := ["Utilisez une application dédiée."],
       common_mistakes := [] }),
    ("password_security",
     { why := "Les mots de passe sont la première ligne de défense.",
       best_practices := [],
       common_mistakes := ["Réutiliser le même mot de passe."] }),
    ("general",
     { why := "Les bons réflexes évitent la plupart des incidents.",
       best_practices := [],
       common_mistakes := [] }) ]

/-- A concrete orchestrator used to instantiate the theorems. -/
def testO : CyberOrchestrator where
  faq := testAgent
  guidance := testGuidance

/-- A session with an active phishing follow-up. -/
def sessionPending : Session :=
  fun k => if k = "pending_flow" then some "phishing_followup" else none

/-- A session holding an unrelated key. -/
def sessionOther : Session :=
  fun k => if k = "autre" then some "x" else none

/-- C7: intent classification is first-match-wins with greeting checked
before all other intents: any greeting keyword in the normalized text
forces `greeting`, whatever other keywords occur; and a text whose
normalized form matches no keyword list at all classifies as `general`. -/
theorem detect_intent_greeting_first_general_default (text : String) :
    ((∃ k ∈ greeting_keywords, strContains (normalize_text text) k = true) →
      detect_intent text = "greeting") ∧
    ((∀ k ∈ greeting_keywords, strContains (normalize_text text) k = false) →
     (∀ p ∈ intent_keywords, ∀ k ∈ p.2, strContains (normalize_text text) k = false) →
      detect_intent text = "general") := by
  constructor
  · intro h
    have hb : greeting_keywords.any (fun k => strContains (normalize_text text) k) = true := by
      rw [List.any_eq_true]
      obtain ⟨k, hk, hc⟩ := h
      exact ⟨k, hk, hc⟩
    simp [detect_intent, hb]
  · intro h1 h2
    have hb : greeting_keywords.any (fun k => strContains (normalize_text text) k) = false := by
      rw [List.any_eq_false]
      intro k hk
      simp [h1 k hk]
    have hf : intent_keywords.find?
        (fun p => p.2.any (fun k => strContains (normalize_text text) k)) = none := by
      rw [List.find?_eq_none]
      intro p hp
      rw [Bool.not_eq_true, List.any_eq_false]
      intro k hk
      simp [h2 p hp k hk]
    simp [detect_intent, hb, hf]

/-- Witness for C7: a text with both a greeting and a phishing keyword is a
`greeting`; a text matching nothing is `general`. -/
theorem detect_intent_greeting_first_general_default_witness :
    detect_intent "bonjour j ai clique sur un lien suspect" = "greeting" ∧
    detect_intent "xyz" = "general" :=
  ⟨(detect_intent_greeting_first_general_default
      "bonjour j ai clique sur un lien suspect").1 (by decide),
   (detect_intent_greeting_first_general_default "xyz").2 (by decide) (by decide)⟩

/-- C6: a blank query short-circuits both retrieval operations: `answer`
returns the fixed prompt-for-input message with score `0` and empty
metadata, and `search` returns the empty ranking — for every agent, so in
particular without consulting the similarity oracle. -/
theorem faq_blank_query_short_circuit (A : CyberFAQAgent) (query : String) (k : ℕ)
    (h : query = "" ∨ strTrim query = "") :
    faq_answer A query = (empty_query_answer, 0, none) ∧
    faq_search A query k = [] := by
  constructor
  · unfold faq_answer
    rw [if_pos h]
  · unfold faq_search
    rw [if_pos h]

/-- Witness for C6 at the whitespace-only query `"   "`. -/
theorem faq_blank_query_short_circuit_witness :
    faq_answer testAgent "   " = (empty_query_answer, 0, none) ∧
    faq_search testAgent "   " 3 = [] :=
  faq_blank_query_short_circuit testAgent "   " 3 (Or.inr (by decide))

/-- C1: entering the phishing flow from the idle state always sets
`pending_flow` to the follow-up marker; with the marker set, the very next
`respond` call — whatever its text — is exactly the follow-up handler
(which never reclassifies intent and answers under the synthetic
`phishing_followup` label) and leaves the session with `pending_flow`
removed, so a handled flow is always cleared. -/
theorem phishing_flow_sets_and_clears_pending (O : CyberOrchestrator)
    (text : String) (s : Session) (uid tip : String) :
    (s "pending_flow" ≠ some "phishing_followup" →
     detect_intent text = "phishing_incident" →
     (respond O text s uid tip).2.1 "pending_flow" = some "phishing_followup") ∧
    (s "pending_flow" = some "phishing_followup" →
     respond O text s uid tip = handle_phishing_followup O text s uid tip ∧
     (respond O text s uid tip).1.intent = "phishing_followup" ∧
     (respond O text s uid tip).2.1 "pending_flow" = none) := by
  constructor
  · intro h1 h2
    unfold respond
    rw [if_neg h1, h2]
    simp [Session.set]
  · intro h1
    have hd : respond O text s uid tip = handle_phishing_followup O text s uid tip := by
      unfold respond
      rw [if_pos h1]
    refine ⟨hd, ?_, ?_⟩
    · rw [hd]
      unfold handle_phishing_followup
      simp
    · rw [hd]
      unfold handle_phishing_followup
      simp [Session.pop]

/-- Witness for C1: the phishing text `"piege"` sets the marker from the
empty session; from a pending session the next turn clears it. -/
theorem phishing_flow_sets_and_clears_pending_witness :
    (emptySession "pending_flow" ≠ some "phishing_followup" ∧
     detect_intent "piege" = "phishing_incident" ∧
     (respond testO "piege" emptySession "u" "t").2.1 "pending_flow" =
       some "phishing_followup") ∧
    (sessionPending "pending_flow" = some "phishing_followup" ∧
     (respond testO "merci" sessionPending "u" "t").2.1 "pending_flow" = none) :=
  ⟨⟨by decide, by decide,
    (phishing_flow_sets_and_clears_pending testO "piege" emptySession "u" "t").1
      (by decide) (by decide)⟩,
   ⟨by decide,
    ((phishing_flow_sets_and_clears_pending testO "merci" sessionPending "u" "t").2
      (by decide)).2.2⟩⟩

/-- In every branch of `respond`, the output session is the input session
with `pending_flow` popped, with `pending_flow` set to the follow-up
marker, or unchanged. -/
theorem respond_session_cases (O : CyberOrchestrator) (text : String)
    (s : Session) (uid tip : String) :
    (respond O text s uid tip).2.1 = Session.pop s "pending_flow" ∨
    (respond O text s uid tip).2.1 = Session.set s "pending_flow" "phishing_followup" ∨
    (respond O text s uid tip).2.1 = s := by
  by_cases h1 : s "pending_flow" = some "phishing_followup"
  · unfold respond
    rw [if_pos h1]
    unfold handle_phishing_followup
    left
    rfl
  · unfold respond
    rw [if_neg h1]
    by_cases h2 : detect_intent text = "greeting"
    · rw [if_pos h2]
      right; right; rfl
    · rw [if_neg h2]
      by_cases h3 : detect_intent text = "phishing_incident"
      · rw [if_pos h3]
        right; left; rfl
      · rw [if_neg h3]
        by_cases h4 : (faq_answer O.faq text).2.1 < mkRat 3 20 ∧
            (detect_intent text = "general" ∨ detect_intent text = "incident_reporting")
        · rw [if_pos h4]
          right; right; rfl
        · rw [if_neg h4]
          by_cases h5 : detect_intent text = "password_security" ∧
              (faq_answer O.faq text).2.1 < mkRat 3 10
          · rw [if_pos h5]
            right; right; rfl
          · rw [if_neg h5]
            right; right; rfl

/-- C10: the session frame of `respond`: every key other than
`pending_flow` maps to the same value after the call as before it; the
`pending_flow` key itself is only ever set to `"phishing_followup"`,
removed, or left unchanged; and the response and the persistence events
read the session only through its `pending_flow` entry. -/
theorem respond_session_frame (O : CyberOrchestrator) (text : String)
    (s : Session) (uid tip : String) :
    (∀ k, k ≠ "pending_flow" → (respond O text s uid tip).2.1 k = s k) ∧
    ((respond O text s uid tip).2.1 "pending_flow" = some "phishing_followup" ∨
     (respond O text s uid tip).2.1 "pending_flow" = none ∨
     (respond O text s uid tip).2.1 "pending_flow" = s "pending_flow") ∧
    (∀ s' : Session, s "pending_flow" = s' "pending_flow" →
      (respond O text s uid tip).1 = (respond O text s' uid tip).1 ∧
      (respond O text s uid tip).2.2 = (respond O text s' uid tip).2.2) := by
  refine ⟨?_, ?_, ?_⟩
  · intro k hk
    rcases respond_session_cases O text s uid tip with h | h | h <;>
      rw [h] <;> simp [Session.pop, Session.set, hk]
  · rcases respond_session_cases O text s uid tip with h | h | h <;> rw [h]
    · right; left
      simp [Session.pop]
    · left
      simp [Session.set]
    · right; right; rfl
  · intro s' hs
    unfold respond
    rw [hs]
    by_cases h1 : s' "pending_flow" = some "phishing_followup"
    · rw [if_pos h1, if_pos h1]
      unfold handle_phishing_followup
      exact ⟨rfl, rfl⟩
    · rw [if_neg h1, if_neg h1]
      by_cases h2 : detect_intent text = "greeting"
      · rw [if_pos h2, if_pos h2]
        exact ⟨rfl, rfl⟩
      · rw [if_neg h2, if_neg h2]
        by_cases h3 : detect_intent text = "phishing_incident"
        · rw [if_pos h3, if_pos h3]
          exact ⟨rfl, rfl⟩
        · rw [if_neg h3, if_neg h3]
          by_cases h4 : (faq_answer O.faq text).2.1 < mkRat 3 20 ∧
              (detect_intent text = "general" ∨ detect_intent text = "incident_reporting")
          · rw [if_pos h4, if_pos h4]
            exact ⟨rfl, rfl⟩
          · rw [if_neg h4, if_neg h4]
            by_cases h5 : detect_intent text = "password_security" ∧
                (faq_answer O.faq text).2.1 < mkRat 3 10
            · rw [if_pos h5, if_pos h5]
              exact ⟨rfl, rfl⟩
            · rw [if_neg h5, if_neg h5]
              exact ⟨rfl, rfl⟩

/-- Witness for C10: an unrelated session key survives a greeting turn. -/
theorem respond_session_frame_witness :
    "autre" ≠ "pending_flow" ∧
    (respond testO "bonjour" sessionOther "u" "t").2.1 "autre" = sessionOther "autre" :=
  ⟨by decide,
   (respond_session_frame testO "bonjour" sessionOther "u" "t").1 "autre" (by decide)⟩

/-- C8: with a phishing follow-up pending, the handler is keyword-gated on
the lowercased text: a credential-admission keyword (`oui`, `identifiant`,
`mot de passe`) yields the urgent remediation with its exactly four steps,
otherwise the lower-urgency remediation with its exactly three steps; both
outcomes carry no suggestions. -/
theorem phishing_followup_keyword_gate (O : CyberOrchestrator) (text : String)
    (s : Session) (uid tip : String)
    (hp : s "pending_flow" = some "phishing_followup") :
    ((strContains (strLower text) "oui" || strContains (strLower text) "identifiant" ||
      strContains (strLower text) "mot de passe") = true →
      (respond O text s uid tip).1.message = followup_urgent_message ∧
      (respond O text s uid tip).1.steps = followup_urgent_steps) ∧
    ((strContains (strLower text) "oui" || strContains (strLower text) "identifiant" ||
      strContains (strLower text) "mot de passe") = false →
      (respond O text s uid tip).1.message = followup_calm_message ∧
      (respond O text s uid tip).1.steps = followup_calm_steps) ∧
    (respond O text s uid tip).1.suggestions = [] ∧
    followup_urgent_steps.length = 4 ∧ followup_calm_steps.length = 3 := by
  have hd : respond O text s uid tip = handle_phishing_followup O text s uid tip := by
    unfold respond
    rw [if_pos hp]
  rw [hd]
  unfold handle_phishing_followup
  dsimp only
  refine ⟨?_, ?_, rfl, rfl, rfl⟩
  · intro h
    rw [h]
    exact ⟨rfl, rfl⟩
  · intro h
    rw [h]
    exact ⟨rfl, rfl⟩

/-- Witness for C8: `"oui j ai mis mon identifiant"` triggers the urgent
branch, `"rien"` the lower-urgency branch, from a pending session. -/
theorem phishing_followup_keyword_gate_witness :
    sessionPending "pending_flow" = some "phishing_followup" ∧
    (respond testO "oui j ai mis mon identifiant" sessionPending "u" "t").1.steps =
      followup_urgent_steps ∧
    (respond testO "rien" sessionPending "u" "t").1.steps = followup_calm_steps :=
  ⟨by decide,
   ((phishing_followup_keyword_gate testO "oui j ai mis mon identifiant" sessionPending
      "u" "t" (by decide)).1 (by decide)).2,
   ((phishing_followup_keyword_gate testO "rien" sessionPending
      "u" "t" (by decide)).2.1 (by decide)).2⟩

/-- Counterexample to C2 as stated: on the phishing-followup branch the
turn is logged, but the `question_asked` counter is not incremented — the
event trace of the turn contains no increment at all. -/
theorem respond_followup_no_increment_cex :
    ¬ ((respond testO "non" sessionPending "u" "t").2.2.countP DBEvent.isSave = 1 ∧
       (respond testO "non" sessionPending "u" "t").2.2.countP DBEvent.isIncr = 1) := by
  decide

/-- C2 (amended): every call to `respond` performs exactly one turn log;
every idle-state branch — greeting, phishing-incident, clarification,
password fallback and default — additionally performs exactly one
`question_asked` increment tagged by the classified intent, while the
phishing-followup branch logs under `phishing_followup` and performs no
increment. -/
theorem respond_logs_once_increments_unless_followup (O : CyberOrchestrator)
    (text : String) (s : Session) (uid tip : String) :
    (respond O text s uid tip).2.2.countP DBEvent.isSave = 1 ∧
    (s "pending_flow" ≠ some "phishing_followup" →
      (respond O text s uid tip).2.2 =
        [DBEvent.save_conversation uid text (respond O text s uid tip).1.message
           (detect_intent text),
         DBEvent.increment_metric "question_asked" (detect_intent text)]) ∧
    (s "pending_flow" = some "phishing_followup" →
      (respond O text s uid tip).2.2 =
        [DBEvent.save_conversation uid text (respond O text s uid tip).1.message
           "phishing_followup"]) := by
  by_cases h1 : s "pending_flow" = some "phishing_followup"
  · have hd : respond O text s uid tip = handle_phishing_followup O text s uid tip := by
      unfold respond
      rw [if_pos h1]
    rw [hd]
    unfold handle_phishing_followup
    refine ⟨rfl, fun hc => absurd h1 hc, fun _ => rfl⟩
  · unfold respond
    rw [if_neg h1]
    refine ⟨?_, ?_, fun hc => absurd hc h1⟩ <;>
      by_cases h2 : detect_intent text = "greeting"
    · rw [if_pos h2]
      rfl
    · rw [if_neg h2]
      by_cases h3 : detect_intent text = "phishing_incident"
      · rw [if_pos h3]
        rfl
      · rw [if_neg h3]
        by_cases h4 : (faq_answer O.faq text).2.1 < mkRat 3 20 ∧
            (detect_intent text = "general" ∨ detect_intent text = "incident_reporting")
        · rw [if_pos h4]
          rfl
        · rw [if_neg h4]
          by_cases h5 : detect_intent text = "password_security" ∧
              (faq_answer O.faq text).2.1 < mkRat 3 10
          · rw [if_pos h5]
            rfl
          · rw [if_neg h5]
            rfl
    · intro _
      rw [if_pos h2]
    · intro _
      rw [if_neg h2]
      by_cases h3 : detect_intent text = "phishing_incident"
      · rw [if_pos h3]
      · rw [if_neg h3]
        by_cases h4 : (faq_answer O.faq text).2.1 < mkRat 3 20 ∧
            (detect_intent text = "general" ∨ detect_intent text = "incident_reporting")
        · rw [if_pos h4]
        · rw [if_neg h4]
          by_cases h5 : detect_intent text = "password_security" ∧
              (faq_answer O.faq text).2.1 < mkRat 3 10
          · rw [if_pos h5]
          · rw [if_neg h5]

/-- Witness for C2 (amended), on a greeting turn from the empty session. -/
theorem respond_logs_once_increments_unless_followup_witness :
    emptySession "pending_flow" ≠ some "phishing_followup" ∧
    (respond testO "bonjour" emptySession "u" "t").2.2 =
      [DBEvent.save_conversation "u" "bonjour"
         (respond testO "bonjour" emptySession "u" "t").1.message
         (detect_intent "bonjour"),
       DBEvent.increment_metric "question_asked" (detect_intent "bonjour")] :=
  ⟨by decide,
   (respond_logs_once_increments_unless_followup testO "bonjour" emptySession "u" "t").2.1
     (by decide)⟩

/-- C4 fails on the code: on the greeting branch (input `"bonjour"`), the
first component of every returned suggestion is a dict
`{"question": ...}`, not a plain string label, contradicting the
`List[Tuple[str, float]]` declaration of `AgentResponse.suggestions`; the
clarification branch behaves the same way. -/
theorem greeting_suggestions_labels_are_dicts :
    (respond testO "bonjour" emptySession "u" "t").1.suggestions.all
      (fun p => p.1.isStr) = false ∧
    (respond testO "bonjour" emptySession "u" "t").1.suggestions =
      greeting_suggestions := by
  decide

/-- C3: in the idle default branch (intent neither greeting nor
phishing-incident, clarification condition false, password fallback
inapplicable), the returned message is the retrieved answer — the output
of `faq_answer`, including its internal low-confidence fallback text —
enriched with the current intent's guidance block when the retrieval score
is at least `0.3`, and with the generic-intent guidance block when the
score is below `0.3`. -/
theorem respond_default_message_enrichment (O : CyberOrchestrator)
    (text : String) (s : Session) (uid tip : String)
    (hp : s "pending_flow" ≠ some "phishing_followup")
    (hg : detect_intent text ≠ "greeting")
    (hph : detect_intent text ≠ "phishing_incident")
    (hcl : ¬ ((faq_answer O.faq text).2.1 < mkRat 3 20 ∧
      (detect_intent text = "general" ∨ detect_intent text = "incident_reporting")))
    (hpw : ¬ (detect_intent text = "password_security" ∧
      (faq_answer O.faq text).2.1 < mkRat 3 10)) :
    (mkRat 3 10 ≤ (faq_answer O.faq text).2.1 →
      (respond O text s uid tip).1.message =
        (faq_answer O.faq text).1 ++ enrich_md O (detect_intent text)) ∧
    ((faq_answer O.faq text).2.1 < mkRat 3 10 →
      (respond O text s uid tip).1.message =
        (faq_answer O.faq text).1 ++ enrich_md O "general") := by
  unfold respond
  rw [if_neg hp, if_neg hg, if_neg hph, if_neg hcl, if_neg hpw]
  constructor
  · intro h
    rw [if_pos h]
  · intro h
    rw [if_neg (not_le.mpr h)]

/-- Witness for C3: for the query `"mfa"` on the concrete agent the score
is `1/2 ≥ 0.3`, and the message is the retrieved answer enriched with the
`mfa` guidance block. -/
theorem respond_default_message_enrichment_witness :
    mkRat 3 10 ≤ (faq_answer testO.faq "mfa").2.1 ∧
    (respond testO "mfa" emptySession "u" "t").1.message =
      (faq_answer testO.faq "mfa").1 ++ enrich_md testO (detect_intent "mfa") :=
  ⟨by decide,
   (respond_default_message_enrichment testO "mfa" emptySession "u" "t"
      (by decide) (by decide) (by decide) (by decide) (by decide)).1 (by decide)⟩

/-- C9: an input classified as `password_security` whose best retrieval
score is below `0.3` gets the fixed four-step password-recovery script in
place of the retrieved answer, enriched with the `password_security`
guidance block.  (The clarification branch can never fire for this intent,
since it requires intent `general` or `incident_reporting`.) -/
theorem respond_password_fallback (O : CyberOrchestrator) (text : String)
    (s : Session) (uid tip : String)
    (hp : s "pending_flow" ≠ some "phishing_followup")
    (hi : detect_intent text = "password_security")
    (hs : (faq_answer O.faq text).2.1 < mkRat 3 10) :
    (respond O text s uid tip).1.message =
      password_fallback_answer ++ enrich_md O "password_security" := by
  unfold respond
  rw [if_neg hp, hi]
  rw [if_neg (by decide : ¬ (("password_security" : String) = "greeting"))]
  rw [if_neg (by decide : ¬ (("password_security" : String) = "phishing_incident"))]
  rw [if_neg (fun h => (by decide : ¬ (("password_security" : String) = "general" ∨
    ("password_security" : String) = "incident_reporting")) h.2)]
  rw [if_pos ⟨rfl, hs⟩]

/-- Witness for C9: the query `"mot de passe"` classifies as
`password_security` and scores `1/5 < 0.3` on the concrete agent. -/
theorem respond_password_fallback_witness :
    detect_intent "mot de passe" = "password_security" ∧
    (faq_answer testO.faq "mot de passe").2.1 < mkRat 3 10 ∧
    (respond testO "mot de passe" emptySession "u" "t").1.message =
      password_fallback_answer ++ enrich_md testO "password_security" :=
  ⟨by decide, by decide,
   respond_password_fallback testO "mot de passe" emptySession "u" "t"
     (by decide) (by decide) (by decide)⟩

/-- The guarded `filterMap` of `faq_search` is a `filter` followed by a
`map`. -/
theorem filterMap_score_eq (A : CyberFAQAgent) (sims : List ℚ) (l : List ℕ) :
    (l.filterMap fun i =>
      let score := sims.getD i 0
      if mkRat 1 10 ≤ score then some (A.faq.getD i default, score) else none) =
    (l.filter (fun i => decide (mkRat 1 10 ≤ sims.getD i 0))).map
      (fun i => (A.faq.getD i default, sims.getD i 0)) := by
  induction l with
  | nil => rfl
  | cons a t ih =>
    rw [List.filterMap_cons, List.filter_cons]
    dsimp only
    by_cases h : mkRat 1 10 ≤ sims.getD a 0
    · rw [if_pos h, if_pos (decide_eq_true h), List.map_cons, ← ih]
    · rw [if_neg h, if_neg (by simpa using h), ← ih]

/-- Counting indices of `range` whose looked-up value satisfies `p` is
counting the values of the list satisfying `p`. -/
theorem countP_range_getD (l : List ℚ) :
    (List.range l.length).countP (fun i => decide (mkRat 1 10 ≤ l.getD i 0)) =
    l.countP (fun x => decide (mkRat 1 10 ≤ x)) := by
  induction l with
  | nil => rfl
  | cons a t ih =>
    rw [List.length_cons, List.range_succ_eq_map, List.countP_cons, List.countP_map]
    have he : ((fun i => decide (mkRat 1 10 ≤ (a :: t).getD i 0)) ∘ Nat.succ) =
        fun i => decide (mkRat 1 10 ≤ t.getD i 0) := by
      funext i
      simp [Function.comp, List.getD_cons_succ]
    rw [he, ih, List.countP_cons]
    simp [List.getD_cons_zero]

/-- C5: `search` returns at most `k` results, each scoring at least the
`0.10` relevance floor, sorted by non-increasing score; and when fewer than
`k` similarity entries reach the floor, fewer than `k` results are
returned. -/
theorem faq_search_ranked_and_bounded (A : CyberFAQAgent) (query : String)
    (k : ℕ) (hq : query ≠ "") :
    (faq_search A query k).length ≤ k ∧
    (∀ p ∈ faq_search A query k, mkRat 1 10 ≤ p.2) ∧
    (faq_search A query k).Pairwise (fun p q => q.2 ≤ p.2) ∧
    ((A.simsOf query).countP (fun x => decide (mkRat 1 10 ≤ x)) < k →
      (faq_search A query k).length < k) := by
  by_cases hb : query = "" ∨ strTrim query = ""
  · have hnil : faq_search A query k = [] := by
      unfold faq_search
      rw [if_pos hb]
    rw [hnil]
    refine ⟨Nat.zero_le _, by simp, List.Pairwise.nil, ?_⟩
    intro hc
    exact lt_of_le_of_lt (Nat.zero_le _) hc
  · have hr : faq_search A query k =
        (((argsortDesc (A.simsOf query)).take k).filter
          (fun i => decide (mkRat 1 10 ≤ (A.simsOf query).getD i 0))).map
          (fun i => (A.faq.getD i default, (A.simsOf query).getD i 0)) := by
      unfold faq_search
      rw [if_neg hb]
      dsimp only
      rw [filterMap_score_eq]
    rw [hr]
    refine ⟨?_, ?_, ?_, ?_⟩
    · calc ((((argsortDesc (A.simsOf query)).take k).filter
            (fun i => decide (mkRat 1 10 ≤ (A.simsOf query).getD i 0))).map
            (fun i => (A.faq.getD i default, (A.simsOf query).getD i 0))).length
          = (((argsortDesc (A.simsOf query)).take k).filter
            (fun i => decide (mkRat 1 10 ≤ (A.simsOf query).getD i 0))).length := by
            rw [List.length_map]
        _ ≤ ((argsortDesc (A.simsOf query)).take k).length := List.length_filter_le _ _
        _ ≤ k := List.length_take_le _ _
    · intro p hp
      rcases List.mem_map.mp hp with ⟨i, hi, hgi⟩
      have hpr := (List.mem_filter.mp hi).2
      have hsc : mkRat 1 10 ≤ (A.simsOf query).getD i 0 := of_decide_eq_true hpr
      rw [← hgi]
      exact hsc
    · rw [List.pairwise_map]
      have hsorted : ((argsortDesc (A.simsOf query)).take k).Pairwise
          (argRel (A.simsOf query)) :=
        (List.sorted_insertionSort (argRel (A.simsOf query))
          (List.range (A.simsOf query).length)).sublist (List.take_sublist _ _)
      have hfil := hsorted.filter
        (fun i => decide (mkRat 1 10 ≤ (A.simsOf query).getD i 0))
      refine hfil.imp ?_
      intro i j hij
      rcases hij with h | h
      · exact le_of_lt h
      · exact le_of_eq h.1.symm
    · intro hc
      have hle : ((((argsortDesc (A.simsOf query)).take k).filter
            (fun i => decide (mkRat 1 10 ≤ (A.simsOf query).getD i 0))).map
            (fun i => (A.faq.getD i default, (A.simsOf query).getD i 0))).length ≤
          (A.simsOf query).countP (fun x => decide (mkRat 1 10 ≤ x)) := by
        calc ((((argsortDesc (A.simsOf query)).take k).filter
              (fun i => decide (mkRat 1 10 ≤ (A.simsOf query).getD i 0))).map
              (fun i => (A.faq.getD i default, (A.simsOf query).getD i 0))).length
            = (((argsortDesc (A.simsOf query)).take k).filter
              (fun i => decide (mkRat 1 10 ≤ (A.simsOf query).getD i 0))).length := by
              rw [List.length_map]
          _ = ((argsortDesc (A.simsOf query)).take k).countP
              (fun i => decide (mkRat 1 10 ≤ (A.simsOf query).getD i 0)) :=
              (List.countP_eq_length_filter _ _).symm
          _ ≤ (argsortDesc (A.simsOf query)).countP
              (fun i => decide (mkRat 1 10 ≤ (A.simsOf query).getD i 0)) :=
              (List.take_sublist _ _).countP_le _
          _ = (List.range (A.simsOf query).length).countP
              (fun i => decide (mkRat 1 10 ≤ (A.simsOf query).getD i 0)) :=
              (List.perm_insertionSort _ _).countP_eq _
          _ = (A.simsOf query).countP (fun x => decide (mkRat 1 10 ≤ x)) :=
              countP_range_getD _
      exact lt_of_le_of_lt hle hc

/-- Witness for C5 on the concrete agent: the query `"vpn"` yields the two
entries clearing the floor, in descending score order. -/
theorem faq_search_ranked_and_bounded_witness :
    ("vpn" : String) ≠ "" ∧
    (faq_search testAgent "vpn" 3).length ≤ 3 ∧
    (∀ p ∈ faq_search testAgent "vpn" 3, mkRat 1 10 ≤ p.2) :=
  ⟨by decide,
   (faq_search_ranked_and_bounded testAgent "vpn" 3 (by decide)).1,
   (faq_search_ranked_and_bounded testAgent "vpn" 3 (by decide)).2.1⟩
